import Mathlib

/-!
Shallow embedding of the Reflect_AI core (emotion classification and
mood-statistics engine) from `src/utils/emotion_analyzer.py` and
`src/utils/mood_tracker.py`, together with theorems settling the
specification claims about it.

Python floats are modelled as exact rationals (ℚ); timestamps are modelled as
integers (minutes since an epoch), with the date key of a timestamp its floor
day and the weekday name a fixed 7-name table indexed by day mod 7 — a
faithful abstraction of `strftime` formatting.  The external sentiment
estimators (TextBlob, VADER) are not part of the repository; they enter the
model as an oracle `sent : String → SentimentData` supplied to
`analyze_emotion`.  Likewise the pandas serializers used by `export_data`
enter as function parameters.
-/

namespace ReflectAI

/-- Model of Python's regex class `\s` for ASCII text: space, tab, newline,
carriage return, vertical tab, form feed. -/
def wsChar (c : Char) : Bool :=
  c == ' ' || c == '\t' || c == '\n' || c == '\r' || c == '\x0b' || c == '\x0c'

/-- Replace every maximal run of whitespace by a single space
(`re.sub(r'\s+', ' ', text)`): of each run only the last character is kept,
as a space. -/
def collapseWs : List Char → List Char
  | [] => []
  | [c] => [if wsChar c then ' ' else c]
  | c :: d :: t =>
    if wsChar c && wsChar d then collapseWs (d :: t)
    else (if wsChar c then ' ' else c) :: collapseWs (d :: t)

/-- Strip leading and trailing whitespace (`str.strip()`). -/
def stripWs (l : List Char) : List Char :=
  ((l.dropWhile wsChar).reverse.dropWhile wsChar).reverse

/-- `EmotionAnalyzer.preprocess_text`: lowercase, collapse whitespace runs to
single spaces, trim. -/
def preprocess_text (s : String) : String :=
  String.mk (stripWs (collapseWs (s.data.map Char.toLower)))

/-- Substring occurrence test on character lists (Python's `in` on `str`). -/
def containsSub : List Char → List Char → Bool
  | n, [] => n.isEmpty
  | n, c :: t => n.isPrefixOf (c :: t) || containsSub n t

/-- Python's `needle in hay` for strings. -/
def subStrB (needle hay : String) : Bool :=
  containsSub needle.data hay.data

/-- `EmotionAnalyzer.emotion_keywords`: the fixed emotion → keyword lexicon,
in its source enumeration order. -/
def emotion_keywords : List (String × List String) :=
  [ ("joy", ["happy", "joyful", "excited", "cheerful", "delighted", "elated",
      "thrilled", "content", "pleased", "glad"]),
    ("sadness", ["sad", "depressed", "melancholy", "gloomy", "dejected",
      "downhearted", "sorrowful", "unhappy", "blue", "down"]),
    ("anger", ["angry", "furious", "mad", "irritated", "annoyed", "rage",
      "outraged", "livid", "frustrated", "pissed"]),
    ("fear", ["afraid", "scared", "frightened", "terrified", "anxious",
      "worried", "nervous", "panicked", "fearful", "apprehensive"]),
    ("surprise", ["surprised", "shocked", "amazed", "astonished", "stunned",
      "bewildered", "startled", "astounded"]),
    ("disgust", ["disgusted", "revolted", "repulsed", "nauseated", "sickened",
      "appalled", "repelled"]),
    ("anticipation", ["excited", "eager", "hopeful", "expectant",
      "anticipating", "looking forward", "optimistic"]),
    ("trust", ["confident", "secure", "trusting", "faithful", "assured",
      "certain", "believing"]),
    ("love", ["love", "adore", "cherish", "affectionate", "devoted", "caring",
      "tender", "romantic"]),
    ("anxiety", ["anxious", "stressed", "overwhelmed", "tense", "uneasy",
      "restless", "agitated", "troubled"]) ]

/-- `EmotionAnalyzer.intensity_modifiers`: modifier phrase → multiplier, in
source enumeration order. -/
def intensity_modifiers : List (String × ℚ) :=
  [ ("very", 15/10), ("extremely", 2), ("really", 13/10), ("quite", 12/10),
    ("somewhat", 8/10), ("slightly", 6/10), ("a bit", 7/10),
    ("incredibly", 18/10), ("totally", 16/10), ("completely", 17/10) ]

/-- The contribution of a single keyword to its emotion's score on an already
preprocessed text: base score 1 when the keyword occurs, multiplied by the
first matching intensity modifier (the scan `break`s after the first match,
so no stacking); 0 when the keyword does not occur.  Presence, not
occurrence count, is checked, so a keyword contributes at most once. -/
def keywordContrib (ptext : String) (k : String) : ℚ :=
  if subStrB k ptext then
    match intensity_modifiers.find? (fun p => subStrB (p.1 ++ " " ++ k) ptext) with
    | some p => p.2
    | none => 1
  else 0

/-- Per-emotion score: sum of the contributions of the emotion's keywords. -/
def scoreKeywords (ptext : String) (kws : List String) : ℚ :=
  kws.foldl (fun acc k => acc + keywordContrib ptext k) 0

/-- `EmotionAnalyzer.detect_emotion_keywords`: preprocess, then score each
emotion of the lexicon; the result keeps the lexicon's enumeration order
(Python dict insertion order). -/
def detect_emotion_keywords (text : String) : List (String × ℚ) :=
  let t := preprocess_text text
  emotion_keywords.map (fun p => (p.1, scoreKeywords t p.2))

/-- Output bundle of `EmotionAnalyzer.analyze_sentiment`.  The two estimators
(TextBlob polarity/subjectivity and the VADER four-part score) are external
libraries; an arbitrary such bundle models their output on a text. -/
structure SentimentData where
  textblob_polarity : ℚ
  textblob_subjectivity : ℚ
  vader_neg : ℚ
  vader_neu : ℚ
  vader_pos : ℚ
  vader_compound : ℚ
deriving DecidableEq

/-- `combined_sentiment = (textblob_polarity + vader_compound) / 2`. -/
def combined_sentiment (sd : SentimentData) : ℚ :=
  (sd.textblob_polarity + sd.vader_compound) / 2

/-- `EmotionAnalyzer.classify_emotion_from_sentiment`: the sentiment fallback
decision ladder. -/
def classify_emotion_from_sentiment (sd : SentimentData) : String :=
  let sentiment_score := combined_sentiment sd
  if sentiment_score > 5/10 then "joy"
  else if sentiment_score < -(5/10) then "sadness"
  else if sentiment_score > 1/10 then "anticipation"
  else if sentiment_score < -(1/10) then
    if sd.vader_neg > 3/10 then
      (if sd.vader_compound < -(3/10) then "anger" else "fear")
    else "sadness"
  else
    if sd.vader_neu > 7/10 then "trust" else "anticipation"

/-- `EmotionAnalyzer.calculate_confidence`:
`min(max(0.4 + min(kw*0.2, 0.3) + |combined|*0.2 + subjectivity*0.1, 0.3), 0.95)`
with `kw = emotion_scores.get(primary_emotion, 0)`. -/
def calculate_confidence (emotion_scores : List (String × ℚ))
    (primary_emotion : String) (sd : SentimentData) : ℚ :=
  let keyword_score := (emotion_scores.lookup primary_emotion).getD 0
  let total := 4/10 + min (keyword_score * (2/10)) (3/10)
    + |combined_sentiment sd| * (2/10) + sd.textblob_subjectivity * (1/10)
  min (max total (3/10)) (95/100)

/-- One comparison step of Python's `max(items, key=lambda x: x[1])`: the
candidate is replaced only on a strictly greater key, so the first pair
attaining the maximum wins. -/
def pyStep (best q : String × ℚ) : String × ℚ :=
  if best.2 < q.2 then q else best

/-- Python's `max(items, key=lambda x: x[1])` on a non-empty association
list: the first pair attaining the maximal value wins. -/
def pyMaxPair : List (String × ℚ) → String × ℚ
  | [] => ("", 0)
  | p :: ps => ps.foldl pyStep p

/-- Python's `max` over the values of a non-empty association list. -/
def maxValsD : List (String × ℚ) → ℚ
  | [] => 0
  | p :: ps => (ps.map Prod.snd).foldl max p.2

/-- `not text or not text.strip()`: empty or whitespace-only. -/
def isBlank (s : String) : Bool :=
  s.data.all wsChar

/-- Result bundle of `EmotionAnalyzer.analyze_emotion`; on the blank-input
short-circuit the sentiment data is the empty dict, modelled as `none`. -/
structure AnalysisResult where
  primary_emotion : String
  confidence : ℚ
  sentiment_score : ℚ
  emotion_scores : List (String × ℚ)
  sentiment_data : Option SentimentData
deriving DecidableEq

/-- `EmotionAnalyzer.analyze_emotion`, parametrised by the external sentiment
oracle `sent` (TextBlob + VADER on a given text). -/
def analyze_emotion (sent : String → SentimentData) (text : String) :
    AnalysisResult :=
  if isBlank text then
    { primary_emotion := "neutral", confidence := 1/2, sentiment_score := 0,
      emotion_scores := [], sentiment_data := none }
  else
    let sentiment_data := sent text
    let emotion_scores := detect_emotion_keywords text
    let primary_emotion :=
      if emotion_scores ≠ [] ∧ 0 < maxValsD emotion_scores then
        (pyMaxPair emotion_scores).1
      else classify_emotion_from_sentiment sentiment_data
    { primary_emotion := primary_emotion,
      confidence := calculate_confidence emotion_scores primary_emotion sentiment_data,
      sentiment_score := combined_sentiment sentiment_data,
      emotion_scores := emotion_scores,
      sentiment_data := some sentiment_data }

/-! ### MoodTracker (`src/utils/mood_tracker.py`) -/

/-- One mood entry; timestamps are integers (minutes since an epoch). -/
structure Entry where
  timestamp : ℤ
  text : String
  emotion : String
  confidence : ℚ
  sentiment_score : ℚ
deriving DecidableEq

/-- Minutes per day, for the date key and weekday of a timestamp. -/
def minutesPerDay : ℤ := 1440

/-- Date key of a timestamp (`strftime('%Y-%m-%d')` modelled as the floor
day number). -/
def dateKey (t : ℤ) : ℤ := t.fdiv minutesPerDay

/-- Fixed weekday-name table. -/
def dayNames : List String :=
  ["Monday", "Tuesday", "Wednesday", "Thursday", "Friday", "Saturday", "Sunday"]

/-- Weekday name of a timestamp (`strftime('%A')` modelled via day mod 7). -/
def weekdayName (t : ℤ) : String :=
  dayNames.getD ((dateKey t).emod 7).toNat "Monday"

/-- Hour of day of a timestamp, in 0..23. -/
def hourOf (t : ℤ) : ℤ := (t.emod minutesPerDay).fdiv 60

/-- `MoodTracker.get_entries_by_date_range`: entries with
`timestamp ≥ now − days_back`, in stored (insertion) order. -/
def get_entries_by_date_range (entries : List Entry) (now days_back : ℤ) :
    List Entry :=
  entries.filter (fun e => now - days_back * minutesPerDay ≤ e.timestamp)

/-- Python dict frequency tally `d[k] = d.get(k, 0) + 1`: increment in place,
new keys appended at the end (insertion order preserved). -/
def bumpCount (k : String) : List (String × ℕ) → List (String × ℕ)
  | [] => [(k, 1)]
  | (k', n) :: rest =>
    if k = k' then (k', n + 1) :: rest else (k', n) :: bumpCount k rest

/-- Frequency tally of a list of labels, keys in first-encountered order. -/
def countsOf (l : List String) : List (String × ℕ) :=
  l.foldl (fun acc k => bumpCount k acc) []

/-- Same tally for integer keys (per-day entry counts). -/
def bumpCountZ (k : ℤ) : List (ℤ × ℕ) → List (ℤ × ℕ)
  | [] => [(k, 1)]
  | (k', n) :: rest =>
    if k = k' then (k', n + 1) :: rest else (k', n) :: bumpCountZ k rest

/-- Per-day frequency tally. -/
def countsOfZ (l : List ℤ) : List (ℤ × ℕ) :=
  l.foldl (fun acc k => bumpCountZ k acc) []

/-- Python's `max(items, key=lambda x: x[1])` over a count tally: first pair
attaining the maximal count wins. -/
def pyMaxPairN : List (String × ℕ) → String × ℕ
  | [] => ("", 0)
  | p :: ps => ps.foldl (fun best q => if best.2 < q.2 then q else best) p

/-- `np.mean` of a list of rationals (0 on the empty list, which the code
never hits on the paths embedded here). -/
def meanQ (l : List ℚ) : ℚ := l.sum / l.length

/-- Snapshot returned by `MoodTracker.get_statistics`. -/
structure StatisticsSnapshot where
  total_entries : ℕ
  most_common_emotion : String
  avg_confidence : ℚ
  avg_sentiment : ℚ
  emotion_distribution : List (String × ℕ)
  daily_counts : List (ℤ × ℕ)
  trend : String
deriving DecidableEq

/-- The fixed snapshot `get_statistics` returns when the window is empty. -/
def emptySnapshot : StatisticsSnapshot :=
  { total_entries := 0, most_common_emotion := "none", avg_confidence := 0,
    avg_sentiment := 0, emotion_distribution := [], daily_counts := [],
    trend := "no data" }

/-- The trend computation of `get_statistics`: for ≥ 4 windowed entries,
split at the floor midpoint (`mid = len // 2`, `entries[:mid]` /
`entries[mid:]`) and compare half means with a 0.1 threshold. -/
def trendOf (ws : List Entry) : String :=
  if 4 ≤ ws.length then
    let mid := ws.length / 2
    let first_half := meanQ ((ws.take mid).map Entry.sentiment_score)
    let second_half := meanQ ((ws.drop mid).map Entry.sentiment_score)
    if second_half > first_half + 1/10 then "improving"
    else if second_half < first_half - 1/10 then "declining"
    else "stable"
  else "insufficient data"

/-- `MoodTracker.get_statistics`. -/
def get_statistics (entries : List Entry) (now days_back : ℤ) :
    StatisticsSnapshot :=
  let ws := get_entries_by_date_range entries now days_back
  if ws = [] then emptySnapshot
  else
    let emotion_counts := countsOf (ws.map Entry.emotion)
    { total_entries := ws.length,
      most_common_emotion := (pyMaxPairN emotion_counts).1,
      avg_confidence := meanQ (ws.map Entry.confidence),
      avg_sentiment := meanQ (ws.map Entry.sentiment_score),
      emotion_distribution := emotion_counts,
      daily_counts := countsOfZ (ws.map (fun e => dateKey e.timestamp)),
      trend := trendOf ws }

/-- Python `d[k].append(v)` grouping with `d.get(k)` check: values appended
to the key's list, new keys appended at the end. -/
def appendGroup (k : String) (v : String) :
    List (String × List String) → List (String × List String)
  | [] => [(k, [v])]
  | (k', vs) :: rest =>
    if k = k' then (k', vs ++ [v]) :: rest else (k', vs) :: appendGroup k v rest

/-- Most common label of a non-empty label list (first-encountered tie
break), "" on the empty list (never hit on embedded paths). -/
def mostCommonOf (l : List String) : String :=
  (pyMaxPairN (countsOf l)).1

/-- Result of `MoodTracker.get_emotion_patterns`; the empty dict returned on
an empty window is modelled by both fields empty. -/
structure Patterns where
  day_patterns : List (String × String)
  time_patterns : List (String × String)
deriving DecidableEq

/-- Time-of-day bucket of an hour: morning 5–11, afternoon 12–16,
evening 17–21, else night. -/
def timeBucket (h : ℤ) : String :=
  if 5 ≤ h ∧ h < 12 then "morning"
  else if 12 ≤ h ∧ h < 17 then "afternoon"
  else if 17 ≤ h ∧ h < 22 then "evening"
  else "night"

/-- `MoodTracker.get_emotion_patterns` (default window 30 days; `get_insights`
passes its own). -/
def get_emotion_patterns (entries : List Entry) (now days_back : ℤ) :
    Patterns :=
  let ws := get_entries_by_date_range entries now days_back
  if ws = [] then { day_patterns := [], time_patterns := [] }
  else
    let day_patterns := ws.foldl
      (fun acc e => appendGroup (weekdayName e.timestamp) e.emotion acc) []
    let time_patterns := ws.foldl
      (fun acc e => appendGroup (timeBucket (hourOf e.timestamp)) e.emotion acc)
      [("morning", []), ("afternoon", []), ("evening", []), ("night", [])]
    { day_patterns := day_patterns.map (fun p => (p.1, mostCommonOf p.2)),
      time_patterns := (time_patterns.filter (fun p => p.2 ≠ [])).map
        (fun p => (p.1, mostCommonOf p.2)) }

/-- A streak of consecutive same-emotion entries
(`MoodTracker.get_recent_streaks`). -/
structure Streak where
  emotion : String
  count : ℕ
  start_date : ℤ
deriving DecidableEq

/-- The backward scan of `get_recent_streaks`: the list is the not-yet-visited
part of the log in newest-first order; `emo`, `count` and `start` describe the
run in progress (`start` is the oldest timestamp absorbed so far).  Completed
runs of length ≥ 2 are appended in completion order; the final run last. -/
def streaksAux : List Entry → String → ℕ → ℤ → List Streak
  | [], emo, count, start => if 2 ≤ count then [⟨emo, count, start⟩] else []
  | e :: rest, emo, count, start =>
    if e.emotion = emo then streaksAux rest emo (count + 1) e.timestamp
    else
      (if 2 ≤ count then [⟨emo, count, start⟩] else [])
        ++ streaksAux rest e.emotion 1 e.timestamp

/-- `MoodTracker.get_recent_streaks`: scan the full log newest-first, group
consecutive same-emotion runs, emit runs of length ≥ 2 in completion
(most-recent-first) order. -/
def get_recent_streaks (entries : List Entry) : List Streak :=
  if entries.length < 2 then []
  else
    match entries.reverse with
    | [] => []
    | e :: rest => streaksAux rest e.emotion 1 e.timestamp

/-- Python's `str.lower()` (character-wise lowercasing). -/
def strLower (s : String) : String :=
  String.mk (s.data.map Char.toLower)

/-- `MoodTracker.export_data`, with the pandas serializers supplied as
parameters (they are external to the repository); `ValueError` is modelled
as `Except.error`. -/
def export_data (toCsv toJson : List Entry → Bool → String)
    (entries : List Entry) (fmt : String) (include_text : Bool) :
    Except String String :=
  if entries.isEmpty then .ok ""
  else if strLower fmt = "csv" then .ok (toCsv entries include_text)
  else if strLower fmt = "json" then .ok (toJson entries include_text)
  else .error "Format must be \x27csv\x27 or \x27json\x27"

/-- `MoodTracker.get_insights`: natural-language strings composed from
`get_statistics`, `get_emotion_patterns` and `get_recent_streaks`. -/
def get_insights (entries : List Entry) (now days_back : ℤ) : List String :=
  let stats := get_statistics entries now days_back
  let patterns := get_emotion_patterns entries now days_back
  let streaks := get_recent_streaks entries
  (if 0 < stats.total_entries then
    [ "You\x27ve logged " ++ toString stats.total_entries
        ++ " mood entries in the past " ++ toString days_back ++ " days.",
      "Your most common emotion has been " ++ stats.most_common_emotion ++ "." ]
   else [])
  ++ (if stats.trend = "improving" then
        ["Your overall mood has been trending upward recently. Keep up the positive momentum!"]
      else if stats.trend = "declining" then
        ["Your mood has been trending downward recently. Consider reaching out for support if needed."]
      else if stats.trend = "stable" then
        ["Your mood has been relatively stable recently."]
      else [])
  ++ (if patterns.day_patterns ≠ [] then
        let busiest_days := patterns.day_patterns.map Prod.fst
        if 0 < busiest_days.length then
          ["You tend to log entries most often on "
            ++ String.intercalate ", " busiest_days ++ "."]
        else []
      else [])
  ++ (match streaks with
      | [] => []
      | recent :: _ =>
        if 3 ≤ recent.count then
          ["You\x27ve had " ++ toString recent.count
            ++ " consecutive entries of " ++ recent.emotion ++ "."]
        else [])

/-! ### Auxiliary and specification-side definitions -/

/-- A constant sentiment oracle, used to instantiate theorems at concrete
inputs. -/
def constSent : String → SentimentData :=
  fun _ => ⟨0, 0, 0, 0, 0, 0⟩

/-- Placeholder entry for total versions of head/last on entry lists. -/
def dummyEntry : Entry := ⟨0, "", "", 0, 0⟩

/-- Chronological maximal runs of consecutive same-emotion entries
(specification side, for the streak claim). -/
def runs : List Entry → List (List Entry)
  | [] => []
  | [e] => [[e]]
  | e :: f :: t =>
    if e.emotion = f.emotion then
      match runs (f :: t) with
      | [] => [[e]]
      | r :: rs => (e :: r) :: rs
    else [e] :: runs (f :: t)

/-- Streak summarising a run given in newest-first order: the emotion of the
run, its length, and the timestamp of its oldest (last listed) entry. -/
def streakOfRun (r : List Entry) : Streak :=
  { emotion := (r.headD dummyEntry).emotion, count := r.length,
    start_date := (r.getLastD dummyEntry).timestamp }

/-- Keep, in order, the summaries of the runs of length ≥ 2. -/
def emitRuns : List (List Entry) → List Streak
  | [] => []
  | r :: rs => (if 2 ≤ r.length then [streakOfRun r] else []) ++ emitRuns rs

/-- Specification-side streak computation, following the claim's words: scan
the log newest-first, group maximal same-emotion runs, keep only runs of
length ≥ 2, summarise each by emotion, length and oldest timestamp, in
most-recent-run-first order. -/
def streaksSpec (entries : List Entry) : List Streak :=
  emitRuns (runs entries.reverse)

/-- Specification-side notion for the day insight: the weekday names on which
the largest number of windowed entries were logged. -/
def busiestDaysSpec (entries : List Entry) (now days_back : ℤ) : List String :=
  let ws := get_entries_by_date_range entries now days_back
  let dc := countsOf (ws.map (fun e => weekdayName e.timestamp))
  let m := (dc.map Prod.snd).foldl max 0
  (dc.filter (fun p => p.2 = m)).map Prod.fst

/-- Sample log: two entries on day 0 (Monday), one on day 1 (Tuesday). -/
def sampleDayLog : List Entry :=
  [⟨100, "a", "joy", 1/2, 0⟩, ⟨200, "b", "joy", 1/2, 0⟩,
   ⟨1540, "c", "sadness", 1/2, 0⟩]

/-- Sample log of four entries with rising sentiment. -/
def sampleTrendLog : List Entry :=
  [⟨100, "a", "joy", 1/2, 0⟩, ⟨200, "b", "joy", 1/2, 0⟩,
   ⟨300, "c", "joy", 1/2, 1/2⟩, ⟨400, "d", "joy", 1/2, 9/10⟩]

/-- Sample log with emotions joy, joy, sadness, sadness, sadness, anger
(oldest to newest). -/
def sampleStreakLog : List Entry :=
  [⟨0, "", "joy", 0, 0⟩, ⟨1, "", "joy", 0, 0⟩, ⟨2, "", "sadness", 0, 0⟩,
   ⟨3, "", "sadness", 0, 0⟩, ⟨4, "", "sadness", 0, 0⟩, ⟨5, "", "anger", 0, 0⟩]

/-! ### Helper lemmas -/

theorem modifier_mult_bounds : ∀ p ∈ intensity_modifiers, 6/10 ≤ p.2 ∧ p.2 ≤ 2 := by
  intro p hp
  fin_cases hp <;> norm_num

theorem keywordContrib_nonneg (t k : String) : 0 ≤ keywordContrib t k := by
  unfold keywordContrib
  split
  · split
    · next p hp =>
      exact le_trans (by norm_num) (modifier_mult_bounds p (List.mem_of_find?_eq_some hp)).1
    · exact zero_le_one
  · exact le_refl 0

theorem foldl_add_eq_sum (f : String → ℚ) :
    ∀ (l : List String) (acc : ℚ),
      l.foldl (fun a k => a + f k) acc = acc + (l.map f).sum := by
  intro l
  induction l with
  | nil => intro acc; simp
  | cons k ks ih => intro acc; simp [List.foldl_cons, ih, add_assoc]

theorem scoreKeywords_nonneg (t : String) (kws : List String) :
    0 ≤ scoreKeywords t kws := by
  unfold scoreKeywords
  rw [foldl_add_eq_sum]
  have : 0 ≤ (kws.map (keywordContrib t)).sum := by
    apply List.sum_nonneg
    intro x hx
    obtain ⟨k, _, rfl⟩ := List.mem_map.mp hx
    exact keywordContrib_nonneg t k
  linarith

theorem scoreKeywords_eq_zero (t : String) (kws : List String)
    (h : ∀ k ∈ kws, subStrB k t = false) : scoreKeywords t kws = 0 := by
  unfold scoreKeywords
  rw [foldl_add_eq_sum]
  have : ∀ x ∈ kws.map (keywordContrib t), x = 0 := by
    intro x hx
    obtain ⟨k, hk, rfl⟩ := List.mem_map.mp hx
    simp [keywordContrib, h k hk]
  rw [List.sum_eq_zero this, zero_add]

theorem containsSub_iff (n : List Char) :
    ∀ h : List Char, containsSub n h = true ↔ n <:+: h := by
  intro h
  induction h with
  | nil =>
    simp [containsSub, List.isEmpty_iff]
  | cons c t ih =>
    simp only [containsSub, Bool.or_eq_true, List.isPrefixOf_iff_prefix, ih,
      List.infix_cons_iff]

theorem subStrB_iff (needle hay : String) :
    subStrB needle hay = true ↔ needle.data <:+: hay.data := by
  exact containsSub_iff needle.data hay.data

theorem subStrB_tail (a b hay : String) (h : subStrB (a ++ b) hay = true) :
    subStrB b hay = true := by
  rw [subStrB_iff] at h ⊢
  refine List.IsInfix.trans ?_ h
  rw [String.data_append]
  exact (List.suffix_append a.data b.data).isInfix

theorem find?_eq_some_split {α : Type} (p : α → Bool) :
    ∀ {l : List α} {a : α}, l.find? p = some a →
      ∃ l₁ l₂, l = l₁ ++ a :: l₂ ∧ ∀ x ∈ l₁, p x = false := by
  intro l
  induction l with
  | nil => intro a h; simp [List.find?] at h
  | cons b bs ih =>
    intro a h
    by_cases hb : p b = true
    · rw [List.find?_cons_of_pos _ hb] at h
      obtain rfl := Option.some.inj h
      exact ⟨[], bs, rfl, by simp⟩
    · rw [List.find?_cons_of_neg _ (by simpa using hb)] at h
      obtain ⟨l₁, l₂, rfl, hall⟩ := ih h
      refine ⟨b :: l₁, l₂, rfl, ?_⟩
      intro x hx
      rcases List.mem_cons.mp hx with rfl | hx'
      · simpa using hb
      · exact hall x hx'

theorem foldl_max_le_iff : ∀ (l : List ℚ) (a b : ℚ),
    l.foldl max a ≤ b ↔ a ≤ b ∧ ∀ x ∈ l, x ≤ b := by
  intro l
  induction l with
  | nil => intro a b; simp
  | cons c t ih =>
    intro a b
    simp only [List.foldl_cons, ih, max_le_iff, List.mem_cons]
    constructor
    · rintro ⟨⟨h1, h2⟩, h3⟩
      exact ⟨h1, fun x hx => by rcases hx with rfl | hx; exacts [h2, h3 x hx]⟩
    · rintro ⟨h1, h2⟩
      exact ⟨⟨h1, h2 c (Or.inl rfl)⟩, fun x hx => h2 x (Or.inr hx)⟩

theorem lt_foldl_max_iff : ∀ (l : List ℚ) (a b : ℚ),
    b < l.foldl max a ↔ b < a ∨ ∃ x ∈ l, b < x := by
  intro l
  induction l with
  | nil => intro a b; simp
  | cons c t ih =>
    intro a b
    simp only [List.foldl_cons, ih, lt_max_iff, List.mem_cons]
    constructor
    · rintro ((h | h) | ⟨x, hx, hbx⟩)
      · exact Or.inl h
      · exact Or.inr ⟨c, Or.inl rfl, h⟩
      · exact Or.inr ⟨x, Or.inr hx, hbx⟩
    · rintro (h | ⟨x, (rfl | hx), hbx⟩)
      · exact Or.inl (Or.inl h)
      · exact Or.inl (Or.inr hbx)
      · exact Or.inr ⟨x, hx, hbx⟩

theorem detect_ne_nil (text : String) : detect_emotion_keywords text ≠ [] := by
  simp [detect_emotion_keywords, emotion_keywords]

theorem analyze_emotion_not_blank (sent : String → SentimentData)
    (text : String) (h : isBlank text = false) :
    analyze_emotion sent text =
      { primary_emotion :=
          if detect_emotion_keywords text ≠ []
              ∧ 0 < maxValsD (detect_emotion_keywords text) then
            (pyMaxPair (detect_emotion_keywords text)).1
          else classify_emotion_from_sentiment (sent text),
        confidence := calculate_confidence (detect_emotion_keywords text)
          (if detect_emotion_keywords text ≠ []
              ∧ 0 < maxValsD (detect_emotion_keywords text) then
            (pyMaxPair (detect_emotion_keywords text)).1
          else classify_emotion_from_sentiment (sent text)) (sent text),
        sentiment_score := combined_sentiment (sent text),
        emotion_scores := detect_emotion_keywords text,
        sentiment_data := some (sent text) } := by
  simp [analyze_emotion, h]

theorem calculate_confidence_bounds (scores : List (String × ℚ))
    (p : String) (sd : SentimentData) :
    3/10 ≤ calculate_confidence scores p sd
      ∧ calculate_confidence scores p sd ≤ 95/100 := by
  unfold calculate_confidence
  exact ⟨le_min (le_max_right _ _) (by norm_num), min_le_right _ _⟩

theorem analyze_scores_not_blank (sent : String → SentimentData)
    (text : String) (h : isBlank text = false) :
    (analyze_emotion sent text).emotion_scores = detect_emotion_keywords text := by
  simp [analyze_emotion, h]

theorem analyze_primary_not_blank (sent : String → SentimentData)
    (text : String) (h : isBlank text = false) :
    (analyze_emotion sent text).primary_emotion =
      if detect_emotion_keywords text ≠ []
          ∧ 0 < maxValsD (detect_emotion_keywords text) then
        (pyMaxPair (detect_emotion_keywords text)).1
      else classify_emotion_from_sentiment (sent text) := by
  simp [analyze_emotion, h]

theorem keyword_condition_pos (text : String)
    (hex : ∃ q ∈ detect_emotion_keywords text, 0 < q.2) :
    detect_emotion_keywords text ≠ []
      ∧ 0 < maxValsD (detect_emotion_keywords text) := by
  refine ⟨detect_ne_nil text, ?_⟩
  obtain ⟨p, ps, hps⟩ := List.exists_cons_of_ne_nil (detect_ne_nil text)
  rw [hps] at hex ⊢
  show 0 < (ps.map Prod.snd).foldl max p.2
  rw [lt_foldl_max_iff]
  obtain ⟨q, hq, hq0⟩ := hex
  rcases List.mem_cons.mp hq with rfl | hq'
  · exact Or.inl hq0
  · exact Or.inr ⟨q.2, List.mem_map_of_mem Prod.snd hq', hq0⟩

theorem keyword_condition_neg (text : String)
    (hz : ∀ q ∈ detect_emotion_keywords text, q.2 ≤ 0) :
    ¬(detect_emotion_keywords text ≠ []
        ∧ 0 < maxValsD (detect_emotion_keywords text)) := by
  obtain ⟨p, ps, hps⟩ := List.exists_cons_of_ne_nil (detect_ne_nil text)
  rw [hps] at hz ⊢
  rintro ⟨-, hmax⟩
  have hle : maxValsD (p :: ps) ≤ 0 := by
    show (ps.map Prod.snd).foldl max p.2 ≤ 0
    rw [foldl_max_le_iff]
    refine ⟨hz p (List.mem_cons_self p ps), ?_⟩
    intro x hx
    obtain ⟨q, hq, rfl⟩ := List.mem_map.mp hx
    exact hz q (List.mem_cons_of_mem p hq)
  exact absurd hmax (not_lt.mpr hle)

theorem foldl_pyStep_spec :
    ∀ (ps : List (String × ℚ)) (p : String × ℚ),
      ∃ l₁ l₂, p :: ps = l₁ ++ (ps.foldl pyStep p) :: l₂
        ∧ (∀ q ∈ l₁, q.2 < (ps.foldl pyStep p).2)
        ∧ ∀ q ∈ p :: ps, q.2 ≤ (ps.foldl pyStep p).2 := by
  intro ps
  induction ps with
  | nil =>
    intro p
    refine ⟨[], [], rfl, by simp, ?_⟩
    intro q hq
    rw [List.mem_singleton.mp hq]
    exact le_refl _
  | cons q qs ih =>
    intro p
    rw [List.foldl_cons]
    by_cases hlt : p.2 < q.2
    · rw [show pyStep p q = q from if_pos hlt]
      obtain ⟨l₁, l₂, heq, hbefore, hle⟩ := ih q
      refine ⟨p :: l₁, l₂, ?_, ?_, ?_⟩
      · rw [List.cons_append, ← heq]
      · intro x hx
        rcases List.mem_cons.mp hx with rfl | hx'
        · exact lt_of_lt_of_le hlt (hle q (List.mem_cons_self q qs))
        · exact hbefore x hx'
      · intro x hx
        rcases List.mem_cons.mp hx with rfl | hx'
        · exact le_of_lt (lt_of_lt_of_le hlt (hle q (List.mem_cons_self q qs)))
        · exact hle x hx'
    · rw [show pyStep p q = p from if_neg hlt]
      obtain ⟨l₁, l₂, heq, hbefore, hle⟩ := ih p
      have hqp : q.2 ≤ p.2 := le_of_not_lt hlt
      have hpr : p.2 ≤ (qs.foldl pyStep p).2 := hle p (List.mem_cons_self p qs)
      cases l₁ with
      | nil =>
        rw [List.nil_append] at heq
        obtain ⟨hr, -⟩ := List.cons.inj heq
        refine ⟨[], q :: qs, ?_, by simp, ?_⟩
        · rw [List.nil_append, ← hr]
        · intro x hx
          rcases List.mem_cons.mp hx with rfl | hx'
          · exact hpr
          · rcases List.mem_cons.mp hx' with rfl | hx''
            · exact le_trans hqp hpr
            · exact hle x (List.mem_cons_of_mem p hx'')
      | cons a l₁' =>
        rw [List.cons_append] at heq
        obtain ⟨ha, htail⟩ := List.cons.inj heq
        have hpa : p.2 = a.2 := congrArg Prod.snd ha
        have hap : a.2 < (qs.foldl pyStep p).2 :=
          hbefore a (List.mem_cons_self a l₁')
        refine ⟨p :: q :: l₁', l₂, ?_, ?_, ?_⟩
        · rw [List.cons_append, List.cons_append, ← htail]
        · intro x hx
          rcases List.mem_cons.mp hx with hxp | hx'
          · rw [hxp, hpa]; exact hap
          · rcases List.mem_cons.mp hx' with hxq | hx''
            · rw [hxq]; exact lt_of_le_of_lt (le_trans hqp (le_of_eq hpa)) hap
            · exact hbefore x (List.mem_cons_of_mem a hx'')
        · intro x hx
          rcases List.mem_cons.mp hx with hxp | hx'
          · rw [hxp]; exact hpr
          · rcases List.mem_cons.mp hx' with hxq | hx''
            · rw [hxq]; exact le_trans hqp hpr
            · exact hle x (List.mem_cons_of_mem p hx'')

/-! ### Claim theorems -/

/-- C3: for empty or whitespace-only input, `analyze_emotion` returns the
fixed neutral result — primary emotion "neutral", confidence 0.5, sentiment
score 0.0, empty emotion-score and sentiment-data maps — for every sentiment
oracle, i.e. without invoking the sentiment scorer or the keyword scorer. -/
theorem C3_blank_input_neutral (sent : String → SentimentData) (text : String)
    (h : isBlank text = true) :
    analyze_emotion sent text =
      { primary_emotion := "neutral", confidence := 1/2, sentiment_score := 0,
        emotion_scores := [], sentiment_data := none } := by
  simp [analyze_emotion, h]

/-- Witness for C3 at the empty string and a whitespace-only string, under a
non-trivial sentiment oracle. -/
theorem C3_blank_input_neutral_witness :
    isBlank "" = true ∧ isBlank " \t " = true
      ∧ analyze_emotion (fun _ => ⟨1, 1, 1, 1, 1, 1⟩) "" =
          { primary_emotion := "neutral", confidence := 1/2,
            sentiment_score := 0, emotion_scores := [], sentiment_data := none }
      ∧ analyze_emotion constSent " \t " =
          { primary_emotion := "neutral", confidence := 1/2,
            sentiment_score := 0, emotion_scores := [], sentiment_data := none } :=
  ⟨rfl, rfl, C3_blank_input_neutral _ "" rfl,
    C3_blank_input_neutral constSent " \t " rfl⟩

/-- C2: for non-blank input, the confidence equals
`0.4 + min(keyword_score_of_primary * 0.2, 0.3) + |combined_sentiment| * 0.2
+ subjectivity * 0.1` clamped to [0.3, 0.95], hence always lies in
[0.3, 0.95]; for blank input the confidence is exactly 0.5. -/
theorem C2_confidence_formula (sent : String → SentimentData) (text : String) :
    (isBlank text = false →
      (analyze_emotion sent text).confidence =
          min (max (4/10
              + min ((((analyze_emotion sent text).emotion_scores.lookup
                  (analyze_emotion sent text).primary_emotion).getD 0) * (2/10))
                (3/10)
              + |combined_sentiment (sent text)| * (2/10)
              + (sent text).textblob_subjectivity * (1/10)) (3/10)) (95/100)
        ∧ 3/10 ≤ (analyze_emotion sent text).confidence
        ∧ (analyze_emotion sent text).confidence ≤ 95/100)
    ∧ (isBlank text = true → (analyze_emotion sent text).confidence = 1/2) := by
  constructor
  · intro h
    rw [analyze_emotion_not_blank sent text h]
    exact ⟨rfl, le_min (le_max_right _ _) (by norm_num), min_le_right _ _⟩
  · intro h
    simp [analyze_emotion, h]

/-- Witness for C2 at a concrete non-blank text and a blank text. -/
theorem C2_confidence_formula_witness :
    isBlank "happy" = false ∧ isBlank "  " = true
      ∧ ((analyze_emotion constSent "happy").confidence =
          min (max (4/10
              + min ((((analyze_emotion constSent "happy").emotion_scores.lookup
                  (analyze_emotion constSent "happy").primary_emotion).getD 0)
                  * (2/10)) (3/10)
              + |combined_sentiment (constSent "happy")| * (2/10)
              + (constSent "happy").textblob_subjectivity * (1/10)) (3/10))
            (95/100)
        ∧ 3/10 ≤ (analyze_emotion constSent "happy").confidence
        ∧ (analyze_emotion constSent "happy").confidence ≤ 95/100)
      ∧ (analyze_emotion constSent "  ").confidence = 1/2 :=
  ⟨rfl, rfl, (C2_confidence_formula constSent "happy").1 rfl,
    (C2_confidence_formula constSent "  ").2 rfl⟩

/-- Counterexample to C5 as stated: the keyword scorer's lexicon has 10
labels, not 11, and the returned mapping has no "neutral" key. -/
theorem C5_counterexample :
    (detect_emotion_keywords "hello").map Prod.fst =
        ["joy", "sadness", "anger", "fear", "surprise", "disgust",
         "anticipation", "trust", "love", "anxiety"]
      ∧ List.lookup "neutral" (detect_emotion_keywords "hello") = none := by
  exact ⟨rfl, rfl⟩

/-- C5 (amended): the keyword scorer scans a fixed lexicon of 10 emotion
labels — {joy, sadness, anger, fear, surprise, disgust, anticipation, trust,
love, anxiety} — and for every non-blank input the returned emotion-score
mapping assigns a non-negative score to each label of that lexicon, the score
being 0 for an emotion none of whose keywords matched. -/
theorem C5_lexicon_scores (text : String) (_h : isBlank text = false) :
    (detect_emotion_keywords text).map Prod.fst =
        ["joy", "sadness", "anger", "fear", "surprise", "disgust",
         "anticipation", "trust", "love", "anxiety"]
      ∧ (∀ q ∈ detect_emotion_keywords text, 0 ≤ q.2)
      ∧ ∀ p ∈ emotion_keywords,
          (∀ k ∈ p.2, subStrB k (preprocess_text text) = false) →
            scoreKeywords (preprocess_text text) p.2 = 0 := by
  refine ⟨rfl, ?_, ?_⟩
  · intro q hq
    simp only [detect_emotion_keywords] at hq
    obtain ⟨p, _, rfl⟩ := List.mem_map.mp hq
    exact scoreKeywords_nonneg _ _
  · intro p _ hz
    exact scoreKeywords_eq_zero _ _ hz

/-- Witness for the amended C5 at a concrete non-blank input. -/
theorem C5_lexicon_scores_witness :
    isBlank "hi" = false
      ∧ ((detect_emotion_keywords "hi").map Prod.fst =
          ["joy", "sadness", "anger", "fear", "surprise", "disgust",
           "anticipation", "trust", "love", "anxiety"]
        ∧ (∀ q ∈ detect_emotion_keywords "hi", 0 ≤ q.2)
        ∧ ∀ p ∈ emotion_keywords,
            (∀ k ∈ p.2, subStrB k (preprocess_text "hi") = false) →
              scoreKeywords (preprocess_text "hi") p.2 = 0) :=
  ⟨rfl, C5_lexicon_scores "hi" rfl⟩

/-- Counterexample to C9 as stated: on an empty log, `export_data` with the
unsupported format "xml" returns the empty string instead of raising. -/
theorem C9_counterexample :
    export_data (fun _ _ => "") (fun _ _ => "") [] "xml" true =
      Except.ok "" := rfl

/-- C9 (amended): for every call on a non-empty entry log with a requested
format outside {csv, json} (case-insensitive), `export_data` raises the
invalid-format `ValueError`, surfaced to the caller as an error value. -/
theorem C9_invalid_format_error (toCsv toJson : List Entry → Bool → String)
    (entries : List Entry) (fmt : String) (include_text : Bool)
    (hne : entries ≠ []) (hcsv : strLower fmt ≠ "csv")
    (hjson : strLower fmt ≠ "json") :
    export_data toCsv toJson entries fmt include_text =
      Except.error "Format must be \x27csv\x27 or \x27json\x27" := by
  simp [export_data, List.isEmpty_iff, hne, hcsv, hjson]

/-- Witness for the amended C9 at a concrete non-empty log and format. -/
theorem C9_invalid_format_error_witness :
    ([⟨0, "", "joy", 0, 0⟩] : List Entry) ≠ []
      ∧ strLower "XML" ≠ "csv" ∧ strLower "XML" ≠ "json"
      ∧ export_data (fun _ _ => "") (fun _ _ => "")
          [⟨0, "", "joy", 0, 0⟩] "XML" true =
        Except.error "Format must be \x27csv\x27 or \x27json\x27" :=
  ⟨List.cons_ne_nil _ _, by decide, by decide,
    C9_invalid_format_error _ _ _ _ _ (List.cons_ne_nil _ _) (by decide)
      (by decide)⟩

/-- C1: for non-blank input, if some keyword score is strictly positive the
primary emotion is the first label (in lexicon enumeration order) attaining
the maximal keyword score; otherwise the primary emotion is given by the
sentiment decision ladder, evaluated in order with first match winning. -/
theorem C1_primary_selection (sent : String → SentimentData) (text : String)
    (h : isBlank text = false) :
    ((∃ q ∈ (analyze_emotion sent text).emotion_scores, 0 < q.2) →
      ∃ s l₁ l₂, (analyze_emotion sent text).emotion_scores
          = l₁ ++ ((analyze_emotion sent text).primary_emotion, s) :: l₂
        ∧ (∀ q ∈ l₁, q.2 < s)
        ∧ ∀ q ∈ (analyze_emotion sent text).emotion_scores, q.2 ≤ s)
    ∧ ((∀ q ∈ (analyze_emotion sent text).emotion_scores, q.2 ≤ 0) →
      (analyze_emotion sent text).primary_emotion =
        (if 5/10 < combined_sentiment (sent text) then "joy"
         else if combined_sentiment (sent text) < -(5/10) then "sadness"
         else if 1/10 < combined_sentiment (sent text) then "anticipation"
         else if combined_sentiment (sent text) < -(1/10) then
           (if 3/10 < (sent text).vader_neg then
             (if (sent text).vader_compound < -(3/10) then "anger" else "fear")
           else "sadness")
         else if 7/10 < (sent text).vader_neu then "trust"
         else "anticipation")) := by
  rw [analyze_scores_not_blank sent text h, analyze_primary_not_blank sent text h]
  constructor
  · intro hex
    rw [if_pos (keyword_condition_pos text hex)]
    obtain ⟨p, ps, hps⟩ := List.exists_cons_of_ne_nil (detect_ne_nil text)
    rw [hps]
    obtain ⟨l₁, l₂, heq, hbefore, hle⟩ := foldl_pyStep_spec ps p
    refine ⟨(pyMaxPair (p :: ps)).2, l₁, l₂, ?_, hbefore, hle⟩
    show p :: ps = l₁ ++ ((ps.foldl pyStep p).1, (ps.foldl pyStep p).2) :: l₂
    rw [Prod.mk.eta]
    exact heq
  · intro hz
    rw [if_neg (keyword_condition_neg text hz)]
    rfl

/-- Witness for C1 at a concrete non-blank text and oracle. -/
theorem C1_primary_selection_witness :
    isBlank "happy" = false
      ∧ (((∃ q ∈ (analyze_emotion constSent "happy").emotion_scores, 0 < q.2) →
          ∃ s l₁ l₂, (analyze_emotion constSent "happy").emotion_scores
              = l₁ ++ ((analyze_emotion constSent "happy").primary_emotion, s) :: l₂
            ∧ (∀ q ∈ l₁, q.2 < s)
            ∧ ∀ q ∈ (analyze_emotion constSent "happy").emotion_scores, q.2 ≤ s)
        ∧ ((∀ q ∈ (analyze_emotion constSent "happy").emotion_scores, q.2 ≤ 0) →
          (analyze_emotion constSent "happy").primary_emotion =
            (if 5/10 < combined_sentiment (constSent "happy") then "joy"
             else if combined_sentiment (constSent "happy") < -(5/10) then "sadness"
             else if 1/10 < combined_sentiment (constSent "happy") then "anticipation"
             else if combined_sentiment (constSent "happy") < -(1/10) then
               (if 3/10 < (constSent "happy").vader_neg then
                 (if (constSent "happy").vader_compound < -(3/10) then "anger"
                  else "fear")
               else "sadness")
             else if 7/10 < (constSent "happy").vader_neu then "trust"
             else "anticipation"))) :=
  ⟨rfl, C1_primary_selection constSent "happy" rfl⟩

theorem classify_mem_range (sd : SentimentData) :
    classify_emotion_from_sentiment sd ∈
      (["joy", "sadness", "anticipation", "anger", "fear", "trust"] :
        List String) := by
  simp only [classify_emotion_from_sentiment]
  by_cases h1 : combined_sentiment sd > 5/10
  · rw [if_pos h1]; decide
  rw [if_neg h1]
  by_cases h2 : combined_sentiment sd < -(5/10)
  · rw [if_pos h2]; decide
  rw [if_neg h2]
  by_cases h3 : combined_sentiment sd > 1/10
  · rw [if_pos h3]; decide
  rw [if_neg h3]
  by_cases h4 : combined_sentiment sd < -(1/10)
  · rw [if_pos h4]
    by_cases h5 : sd.vader_neg > 3/10
    · rw [if_pos h5]
      by_cases h6 : sd.vader_compound < -(3/10)
      · rw [if_pos h6]; decide
      · rw [if_neg h6]; decide
    · rw [if_neg h5]; decide
  · rw [if_neg h4]
    by_cases h7 : sd.vader_neu > 7/10
    · rw [if_pos h7]; decide
    · rw [if_neg h7]; decide

/-- C10: on the sentiment-fallback branch (all keyword scores zero, non-blank
input), the primary emotion lies in exactly {joy, sadness, anticipation,
anger, fear, trust}: every fallback output is in the set, and every member of
the set is attainable by the ladder; in particular "neutral", "surprise",
"disgust", "love" and "anxiety" never arise from the fallback. -/
theorem C10_fallback_range (sent : String → SentimentData) (text : String)
    (h : isBlank text = false)
    (hz : ∀ q ∈ (analyze_emotion sent text).emotion_scores, q.2 ≤ 0) :
    (analyze_emotion sent text).primary_emotion ∈
        (["joy", "sadness", "anticipation", "anger", "fear", "trust"] :
          List String)
      ∧ ∀ l ∈ (["joy", "sadness", "anticipation", "anger", "fear", "trust"] :
          List String),
          ∃ sd : SentimentData, classify_emotion_from_sentiment sd = l := by
  constructor
  · rw [analyze_scores_not_blank sent text h] at hz
    rw [analyze_primary_not_blank sent text h,
      if_neg (keyword_condition_neg text hz)]
    exact classify_mem_range (sent text)
  · intro l hl
    fin_cases hl
    · exact ⟨⟨2, 0, 0, 0, 0, 0⟩,
        by norm_num [classify_emotion_from_sentiment, combined_sentiment]⟩
    · exact ⟨⟨-2, 0, 0, 0, 0, 0⟩,
        by norm_num [classify_emotion_from_sentiment, combined_sentiment]⟩
    · exact ⟨⟨4/10, 0, 0, 0, 0, 0⟩,
        by norm_num [classify_emotion_from_sentiment, combined_sentiment]⟩
    · exact ⟨⟨0, 0, 4/10, 0, 0, -(4/10)⟩,
        by norm_num [classify_emotion_from_sentiment, combined_sentiment]⟩
    · exact ⟨⟨-(4/10), 0, 4/10, 0, 0, 0⟩,
        by norm_num [classify_emotion_from_sentiment, combined_sentiment]⟩
    · exact ⟨⟨0, 0, 0, 8/10, 0, 0⟩,
        by norm_num [classify_emotion_from_sentiment, combined_sentiment]⟩

/-- Witness for C10 at a concrete keyword-free text. -/
theorem C10_fallback_range_witness :
    isBlank "zzz" = false
      ∧ (∀ q ∈ (analyze_emotion constSent "zzz").emotion_scores, q.2 ≤ 0)
      ∧ ((analyze_emotion constSent "zzz").primary_emotion ∈
          (["joy", "sadness", "anticipation", "anger", "fear", "trust"] :
            List String)
        ∧ ∀ l ∈ (["joy", "sadness", "anticipation", "anger", "fear", "trust"] :
            List String),
            ∃ sd : SentimentData, classify_emotion_from_sentiment sd = l) := by
  have hall : ∀ p ∈ emotion_keywords, ∀ k ∈ p.2,
      subStrB k (preprocess_text "zzz") = false := by decide
  have hz : ∀ q ∈ (analyze_emotion constSent "zzz").emotion_scores, q.2 ≤ 0 := by
    rw [analyze_scores_not_blank constSent "zzz" rfl]
    intro q hq
    simp only [detect_emotion_keywords] at hq
    obtain ⟨p, hp, rfl⟩ := List.mem_map.mp hq
    exact le_of_eq (scoreKeywords_eq_zero _ _ (hall p hp))
  exact ⟨rfl, hz, C10_fallback_range constSent "zzz" rfl hz⟩

/-- C4: whenever the normalized text contains the exact phrase
`"<modifier> <keyword>"`, the keyword's contribution equals the multiplier of
the first matching modifier in enumeration order (a value in [0.6, 2.0]),
not the base score 1 and with no stacking of further modifiers; and every
emotion score is the sum of one such contribution per lexicon keyword, so a
keyword contributes at most once however often it occurs. -/
theorem C4_intensity_modifier (text m k : String) (mult : ℚ)
    (hm : (m, mult) ∈ intensity_modifiers)
    (hsub : subStrB (m ++ " " ++ k) (preprocess_text text) = true) :
    ∃ p : String × ℚ,
      intensity_modifiers.find?
          (fun q => subStrB (q.1 ++ " " ++ k) (preprocess_text text)) = some p
      ∧ (∃ l₁ l₂, intensity_modifiers = l₁ ++ p :: l₂
          ∧ ∀ q ∈ l₁, subStrB (q.1 ++ " " ++ k) (preprocess_text text) = false)
      ∧ keywordContrib (preprocess_text text) k = p.2
      ∧ 6/10 ≤ p.2 ∧ p.2 ≤ 2
      ∧ ∀ kws : List String,
          scoreKeywords (preprocess_text text) kws
            = (kws.map (keywordContrib (preprocess_text text))).sum := by
  have hk : subStrB k (preprocess_text text) = true :=
    subStrB_tail (m ++ " ") k _ hsub
  have hsome : (intensity_modifiers.find?
      (fun q => subStrB (q.1 ++ " " ++ k) (preprocess_text text))).isSome := by
    rw [List.find?_isSome]
    exact ⟨(m, mult), hm, hsub⟩
  obtain ⟨p, hp⟩ := Option.isSome_iff_exists.mp hsome
  have hmem : p ∈ intensity_modifiers := List.mem_of_find?_eq_some hp
  refine ⟨p, hp, find?_eq_some_split _ hp, ?_,
    (modifier_mult_bounds p hmem).1, (modifier_mult_bounds p hmem).2, ?_⟩
  · simp [keywordContrib, hk, hp]
  · intro kws
    unfold scoreKeywords
    rw [foldl_add_eq_sum, zero_add]

/-- Witness for C4 at the phrase "very happy". -/
theorem C4_intensity_modifier_witness :
    ("very", (15 : ℚ)/10) ∈ intensity_modifiers
      ∧ subStrB ("very" ++ " " ++ "happy") (preprocess_text "It was Very  HAPPY") = true
      ∧ ∃ p : String × ℚ,
        intensity_modifiers.find?
            (fun q => subStrB (q.1 ++ " " ++ "happy")
              (preprocess_text "It was Very  HAPPY")) = some p
        ∧ (∃ l₁ l₂, intensity_modifiers = l₁ ++ p :: l₂
            ∧ ∀ q ∈ l₁, subStrB (q.1 ++ " " ++ "happy")
                (preprocess_text "It was Very  HAPPY") = false)
        ∧ keywordContrib (preprocess_text "It was Very  HAPPY") "happy" = p.2
        ∧ 6/10 ≤ p.2 ∧ p.2 ≤ 2
        ∧ ∀ kws : List String,
            scoreKeywords (preprocess_text "It was Very  HAPPY") kws
              = (kws.map (keywordContrib (preprocess_text "It was Very  HAPPY"))).sum :=
  ⟨List.mem_cons_self _ _, rfl,
    C4_intensity_modifier "It was Very  HAPPY" "very" "happy" ((15 : ℚ)/10)
      (List.mem_cons_self _ _) rfl⟩

theorem runs_append_ne :
    ∀ (run : List Entry) (emo : String) (l : List Entry), run ≠ [] →
      (∀ x ∈ run, x.emotion = emo) →
      (∀ f t, l = f :: t → f.emotion ≠ emo) →
      runs (run ++ l) = run :: runs l := by
  intro run
  induction run with
  | nil => intro emo l h; exact absurd rfl h
  | cons a run' ih =>
    intro emo l _ hall hhead
    cases run' with
    | nil =>
      cases l with
      | nil => rfl
      | cons f t =>
        have hne : ¬a.emotion = f.emotion := by
          rw [hall a (List.mem_cons_self a [])]
          exact fun h => hhead f t rfl (h.symm ▸ rfl)
        show runs (a :: f :: t) = [a] :: runs (f :: t)
        simp only [runs, if_neg hne]
    | cons b run'' =>
      have hab : a.emotion = b.emotion := by
        rw [hall a (List.mem_cons_self _ _),
          hall b (List.mem_cons_of_mem a (List.mem_cons_self _ _))]
      have hrec : runs ((b :: run'') ++ l) = (b :: run'') :: runs l :=
        ih emo l (List.cons_ne_nil b run'')
          (fun x hx => hall x (List.mem_cons_of_mem a hx)) hhead
      show runs ((a :: b :: run'') ++ l) = (a :: b :: run'') :: runs l
      rw [List.cons_append, List.cons_append]
      rw [List.cons_append] at hrec
      simp only [runs, if_pos hab, hrec]

theorem streaksAux_eq :
    ∀ (l run : List Entry) (emo : String), run ≠ [] →
      (∀ x ∈ run, x.emotion = emo) →
      streaksAux l emo run.length ((run.getLastD dummyEntry).timestamp)
        = emitRuns (runs (run ++ l)) := by
  intro l
  induction l with
  | nil =>
    intro run emo hne hall
    rw [runs_append_ne run emo [] hne hall (by intro f t h; exact List.noConfusion h)]
    obtain ⟨a, run', rfl⟩ := List.exists_cons_of_ne_nil hne
    show streaksAux [] emo (a :: run').length _ = _
    simp only [streaksAux, emitRuns, runs, List.append_nil, streakOfRun,
      List.headD_cons]
    rw [hall a (List.mem_cons_self a run')]
  | cons e rest ih =>
    intro run emo hne hall
    obtain ⟨a, run', hrun⟩ := List.exists_cons_of_ne_nil hne
    simp only [streaksAux]
    by_cases he : e.emotion = emo
    · rw [if_pos he]
      have hlen : run.length + 1 = (run ++ [e]).length := by
        simp [List.length_append]
      have hlast : e.timestamp = ((run ++ [e]).getLastD dummyEntry).timestamp := by
        rw [List.getLastD_concat]
      rw [hlen, hlast,
        ih (run ++ [e]) emo (by simp) (by
          intro x hx
          rcases List.mem_append.mp hx with hx' | hx'
          · exact hall x hx'
          · rw [List.mem_singleton.mp hx']; exact he),
        List.append_assoc, List.singleton_append]
    · rw [if_neg he]
      have h1 : streaksAux rest e.emotion 1 e.timestamp
          = emitRuns (runs (e :: rest)) := by
        have := ih [e] e.emotion (List.cons_ne_nil e []) (by simp)
        simpa using this
      rw [h1, runs_append_ne run emo (e :: rest) hne hall
        (by intro f t h; rw [← (List.cons.inj h).1]; exact he)]
      simp only [emitRuns]
      have hsor : streakOfRun run =
          ⟨emo, run.length, (run.getLastD dummyEntry).timestamp⟩ := by
        rw [hrun]
        simp only [streakOfRun, List.headD_cons]
        rw [hall a (by rw [hrun]; exact List.mem_cons_self a run')]
      rw [hsor]

theorem get_recent_streaks_eq_spec (entries : List Entry) :
    get_recent_streaks entries = streaksSpec entries := by
  unfold get_recent_streaks streaksSpec
  by_cases hlen : entries.length < 2
  · rw [if_pos hlen]
    rcases entries with _ | ⟨a, _ | ⟨b, t⟩⟩
    · rfl
    · rfl
    · exfalso
      simp only [List.length_cons] at hlen
      omega
  · rw [if_neg hlen]
    have hne : entries ≠ [] := by
      intro h; rw [h] at hlen; exact hlen (by simp)
    have hrev : entries.reverse ≠ [] := by simpa using hne
    obtain ⟨e, rest, hrest⟩ := List.exists_cons_of_ne_nil hrev
    rw [hrest]
    have h1 : streaksAux rest e.emotion 1 e.timestamp
        = emitRuns (runs ([e] ++ rest)) := by
      have := streaksAux_eq rest [e] e.emotion (List.cons_ne_nil e []) (by simp)
      simpa using this
    rw [List.singleton_append] at h1
    exact h1

/-- C7: `get_recent_streaks` scans the full log newest-first, groups maximal
consecutive same-emotion runs, emits only runs of length ≥ 2 — each recording
the emotion, the run length, and the timestamp of the oldest entry of the run
— ordered from most recent run to oldest; in particular on the log with
emotions [joy, joy, sadness, sadness, sadness, anger] (oldest to newest) it
yields {sadness, 3} then {joy, 2} and no streak for the single anger entry. -/
theorem C7_streaks_spec :
    (∀ entries : List Entry, get_recent_streaks entries = streaksSpec entries)
    ∧ get_recent_streaks sampleStreakLog =
        [{ emotion := "sadness", count := 3, start_date := 2 },
         { emotion := "joy", count := 2, start_date := 0 }] :=
  ⟨get_recent_streaks_eq_spec, rfl⟩

/-- C6: `get_statistics` returns the fixed empty snapshot on an empty window;
with 1–3 windowed entries the trend is "insufficient data"; with ≥ 4 entries
the window (in stored chronological order) is split at the floor midpoint —
the extra entry of an odd count going to the second half — and the trend is
"improving" when the second-half mean sentiment exceeds the first-half mean
by more than 0.1, "declining" when it is below it by more than 0.1, and
"stable" otherwise. -/
theorem C6_statistics_trend (entries : List Entry) (now days_back : ℤ)
    (ws : List Entry)
    (hws : get_entries_by_date_range entries now days_back = ws) :
    (ws = [] →
      get_statistics entries now days_back =
        { total_entries := 0, most_common_emotion := "none",
          avg_confidence := 0, avg_sentiment := 0, emotion_distribution := [],
          daily_counts := [], trend := "no data" })
    ∧ (ws ≠ [] → ws.length ≤ 3 →
        (get_statistics entries now days_back).trend = "insufficient data")
    ∧ (4 ≤ ws.length →
        (get_statistics entries now days_back).trend =
            (if meanQ ((ws.take (ws.length / 2)).map Entry.sentiment_score)
                  + 1/10
                < meanQ ((ws.drop (ws.length / 2)).map Entry.sentiment_score)
              then "improving"
              else if meanQ ((ws.drop (ws.length / 2)).map Entry.sentiment_score)
                  < meanQ ((ws.take (ws.length / 2)).map Entry.sentiment_score)
                    - 1/10
              then "declining" else "stable")
          ∧ (ws.take (ws.length / 2)).length = ws.length / 2
          ∧ (ws.drop (ws.length / 2)).length = ws.length - ws.length / 2
          ∧ ws.take (ws.length / 2) ++ ws.drop (ws.length / 2) = ws) := by
  refine ⟨?_, ?_, ?_⟩
  · intro h
    simp [get_statistics, hws, h, emptySnapshot]
  · intro hne hlen
    simp only [get_statistics, hws, if_neg hne]
    show trendOf ws = "insufficient data"
    unfold trendOf
    rw [if_neg (by omega)]
  · intro h4
    have hne : ws ≠ [] := by
      intro h; rw [h] at h4; simp at h4
    refine ⟨?_, ?_, List.length_drop _ _, List.take_append_drop _ _⟩
    · simp only [get_statistics, hws, if_neg hne]
      show trendOf ws = _
      unfold trendOf
      rw [if_pos h4]
    · rw [List.length_take]
      exact Nat.min_eq_left (Nat.div_le_self _ _)

/-- Witness for C6 on a four-entry window with rising sentiment. -/
theorem C6_statistics_trend_witness :
    get_entries_by_date_range sampleTrendLog 3000 14 = sampleTrendLog
      ∧ 4 ≤ sampleTrendLog.length
      ∧ (get_statistics sampleTrendLog 3000 14).trend = "improving" := by
  have hws : get_entries_by_date_range sampleTrendLog 3000 14 = sampleTrendLog :=
    rfl
  refine ⟨hws, by decide, ?_⟩
  have h := (C6_statistics_trend sampleTrendLog 3000 14 sampleTrendLog hws).2.2
    (by decide)
  rw [h.1]
  have ht : sampleTrendLog.take (sampleTrendLog.length / 2) =
      [⟨100, "a", "joy", 1/2, 0⟩, ⟨200, "b", "joy", 1/2, 0⟩] := rfl
  have hd : sampleTrendLog.drop (sampleTrendLog.length / 2) =
      [⟨300, "c", "joy", 1/2, 1/2⟩, ⟨400, "d", "joy", 1/2, 9/10⟩] := rfl
  rw [ht, hd]
  norm_num [meanQ]

/-- C8 names a code bug: the day-activity insight sentence lists every
weekday present in the window's day-pattern map, not the day(s) with the most
logged entries.  On a window with two Monday entries and one Tuesday entry
the insight names "Monday, Tuesday" although the busiest day is Monday
alone, contradicting the sentence's own "most often" wording. -/
theorem C8_day_insight_lists_all_days :
    get_insights sampleDayLog 3000 14 =
        [ "You\x27ve logged 3 mood entries in the past 14 days.",
          "Your most common emotion has been joy.",
          "You tend to log entries most often on Monday, Tuesday." ]
      ∧ busiestDaysSpec sampleDayLog 3000 14 = ["Monday"]
      ∧ "You tend to log entries most often on Monday." ∉
          get_insights sampleDayLog 3000 14 := by
  refine ⟨rfl, rfl, ?_⟩
  decide

end ReflectAI
